import Mathlib

/-!
Formal model of `litterboxd.py`, a Telegram bot that polls Letterboxd RSS
feeds and notifies subscribed chats about newly logged movies.

The Python program keeps two global dictionaries:
  * `subscribed_users : chat_id -> username` (chat ids are Python ints;
    after a JSON reload they come back as strings), and
  * `last_logged_movies : username -> last notified movie title`.

Python dictionaries preserve insertion order, so both registries are
modelled as association lists with unique keys; `d[k] = v` updates the
first (only) occurrence in place or appends a fresh entry at the end,
`del d[k]` removes the entry, and `d.get(k)` / `k in d` look the key up.

The external collaborators are modelled as parameters:
  * the feed (`feedparser.parse` composed with entry extraction) is a
    function from an RSS url to the list of entries, empty on any failure;
  * notification delivery (`context.bot.send_message`) is a function from
    chat id and text to a success flag; `false` models the call raising,
    in which case the exception propagates out of the handler, so the
    remaining code of the tick does not run;
  * persistence success for `save_data` is a flag on the mutating
    handlers; `false` models `save_data` raising after the in-memory
    mutation has already happened.
-/

namespace Litterboxd

/-- A Python value used as a dictionary key: the chat ids produced by
`update.message.chat_id` are ints, while keys read back from JSON are
strings. -/
inductive PyKey where
  | int (n : Int)
  | str (s : String)
deriving DecidableEq, Repr

/-- One entry of a parsed RSS feed, with the two fields the program
reads (`entry.title` and `entry.link`). -/
structure Entry where
  title : String
  link : String
deriving DecidableEq, Repr

/-- Dictionary lookup: `d.get(k)` (also used for `k in d`, which is
`dlookup d k ≠ none`). Returns the value at the first matching key. -/
def dlookup {α β : Type} [DecidableEq α] : List (α × β) → α → Option β
  | [], _ => none
  | (k, v) :: rest, a => if k = a then some v else dlookup rest a

/-- Dictionary assignment `d[k] = v`: update the value of an existing key
in place (keeping its position, as CPython dicts do) or append a new
entry at the end. -/
def dinsert {α β : Type} [DecidableEq α] : List (α × β) → α → β → List (α × β)
  | [], a, b => [(a, b)]
  | (k, v) :: rest, a, b => if k = a then (k, b) :: rest else (k, v) :: dinsert rest a b

/-- Dictionary deletion `del d[k]`: remove the entry at the first
matching key. -/
def derase {α β : Type} [DecidableEq α] : List (α × β) → α → List (α × β)
  | [], _ => []
  | (k, v) :: rest, a => if k = a then rest else (k, v) :: derase rest a

/-- The keys of a dictionary, in order. -/
def dkeys {α β : Type} (l : List (α × β)) : List α := l.map Prod.fst

/-- Number of entries stored under a given key. -/
def countKey {α β : Type} [DecidableEq α] (l : List (α × β)) (a : α) : Nat :=
  (l.filter (fun p => decide (p.1 = a))).length

/-- The in-memory state of the bot: the two global registries. -/
structure BotState where
  subscribed_users : List (PyKey × String)
  last_logged_movies : List (String × String)
deriving DecidableEq, Repr

@[simp] theorem dlookup_nil {α β : Type} [DecidableEq α] (a : α) :
    dlookup ([] : List (α × β)) a = none := rfl

@[simp] theorem dlookup_cons {α β : Type} [DecidableEq α] (k a : α) (v : β)
    (rest : List (α × β)) :
    dlookup ((k, v) :: rest) a = if k = a then some v else dlookup rest a := rfl

theorem dlookup_dinsert_self {α β : Type} [DecidableEq α]
    (l : List (α × β)) (a : α) (b : β) : dlookup (dinsert l a b) a = some b := by
  induction l with
  | nil => simp [dinsert]
  | cons p rest ih =>
    obtain ⟨k, v⟩ := p
    by_cases h : k = a
    · simp [dinsert, h]
    · simp [dinsert, h, ih]

theorem dlookup_dinsert_ne {α β : Type} [DecidableEq α]
    (l : List (α × β)) (a k : α) (b : β) (h : a ≠ k) :
    dlookup (dinsert l a b) k = dlookup l k := by
  induction l with
  | nil => simp [dinsert, h]
  | cons p rest ih =>
    obtain ⟨k', v'⟩ := p
    by_cases h' : k' = a
    · subst h'
      simp [dinsert, h]
    · simp only [dinsert, if_neg h', dlookup_cons]
      by_cases h'' : k' = k
      · simp [h'']
      · simp [h'', ih]

theorem dinsert_dinsert_self {α β : Type} [DecidableEq α]
    (l : List (α × β)) (a : α) (b : β) :
    dinsert (dinsert l a b) a b = dinsert l a b := by
  induction l with
  | nil => simp [dinsert]
  | cons p rest ih =>
    obtain ⟨k, v⟩ := p
    by_cases h : k = a
    · simp [dinsert, h]
    · simp [dinsert, h, ih]

theorem dlookup_eq_none_of_not_mem_keys {α β : Type} [DecidableEq α]
    {l : List (α × β)} {a : α} (h : a ∉ dkeys l) : dlookup l a = none := by
  induction l with
  | nil => rfl
  | cons p rest ih =>
    obtain ⟨k, v⟩ := p
    simp only [dkeys, List.map_cons, List.mem_cons] at h
    push_neg at h
    have hk : ¬ (k = a) := fun hk => h.1 hk.symm
    rw [dlookup_cons, if_neg hk]
    exact ih (by simpa [dkeys] using h.2)

theorem dlookup_derase_self {α β : Type} [DecidableEq α]
    {l : List (α × β)} (hnd : (dkeys l).Nodup) (a : α) :
    dlookup (derase l a) a = none := by
  induction l with
  | nil => rfl
  | cons p rest ih =>
    obtain ⟨k, v⟩ := p
    simp only [dkeys, List.map_cons, List.nodup_cons] at hnd
    by_cases h : k = a
    · subst h
      simp only [derase, if_pos rfl]
      exact dlookup_eq_none_of_not_mem_keys hnd.1
    · simp only [derase, if_neg h, dlookup_cons, if_neg h]
      exact ih hnd.2

theorem countKey_eq_zero_of_not_mem_keys {α β : Type} [DecidableEq α]
    {l : List (α × β)} {a : α} (h : a ∉ dkeys l) : countKey l a = 0 := by
  induction l with
  | nil => rfl
  | cons p rest ih =>
    obtain ⟨k, v⟩ := p
    simp only [dkeys, List.map_cons, List.mem_cons] at h
    push_neg at h
    have hk : ¬ (k = a) := fun hk => h.1 hk.symm
    have h2 := ih (by simpa [dkeys] using h.2)
    simp [countKey, List.filter_cons, hk] at h2 ⊢
    exact h2

theorem countKey_dinsert_self {α β : Type} [DecidableEq α]
    {l : List (α × β)} (hnd : (dkeys l).Nodup) (a : α) (b : β) :
    countKey (dinsert l a b) a = 1 := by
  induction l with
  | nil => simp [dinsert, countKey]
  | cons p rest ih =>
    obtain ⟨k, v⟩ := p
    simp only [dkeys, List.map_cons, List.nodup_cons] at hnd
    by_cases h : k = a
    · subst h
      have h0 : countKey rest k = 0 :=
        countKey_eq_zero_of_not_mem_keys (by simpa [dkeys] using hnd.1)
      simp only [dinsert, if_pos rfl]
      simpa [countKey, List.filter_cons] using h0
    · have h2 : countKey (dinsert rest a b) a = 1 := ih (by simpa [dkeys] using hnd.2)
      simp only [dinsert, if_neg h]
      simp [countKey, List.filter_cons, h] at h2 ⊢
      exact h2

theorem dlookup_dinsert_ne_none {α β : Type} [DecidableEq α]
    (l : List (α × β)) (a k : α) (b : β) (h : dlookup l k ≠ none) :
    dlookup (dinsert l a b) k ≠ none := by
  by_cases hak : a = k
  · subst hak
    simp [dlookup_dinsert_self]
  · rw [dlookup_dinsert_ne l a k b hak]
    exact h

/-- Model of `get_latest_movies(rss_url, count)`: `f` maps an RSS url to
the parsed feed's entries (`feedparser` yields no entries on network or
parse failure, so a failed fetch is the empty list). If there are
entries, return `(entry.title, entry.link)` for the first `count` of
them, else return `[]`. -/
def get_latest_movies (f : String → List Entry) (rss_url : String) (count : Nat) :
    List (String × String) :=
  let entries := f rss_url
  if entries ≠ [] then (entries.take count).map (fun e => (e.title, e.link)) else []

/-- Model of `construct_rss_url(username)`. -/
def construct_rss_url (username : String) : String :=
  "https://letterboxd.com/" ++ username ++ "/rss/"

/-- A notification event: one `context.bot.send_message(chat_id, text)`
call made by `check_for_new_movies`, recorded with the data the text is
built from. -/
structure Notif where
  chat_id : PyKey
  username : String
  title : String
  link : String
deriving DecidableEq, Repr

/-- The exact message text sent for a new movie. -/
def notif_text (n : Notif) : String :=
  "New movie logged by " ++ n.username ++ ": " ++ n.title ++
    "\nWatch it here: " ++ n.link

/-- Model of the body of `subscribe` when a username argument is present
(`subscribed_users[chat_id] = username; save_data()`).  `saveOk = false`
models `save_data` raising: the reply is `none` because the exception
propagates before `reply_text`, but the dictionary assignment has
already happened. -/
def subscribe (saveOk : Bool) (s : BotState) (chat_id : PyKey) (username : String) :
    BotState × Option String :=
  let s1 : BotState :=
    { s with subscribed_users := dinsert s.subscribed_users chat_id username }
  if saveOk then (s1, some ("Subscribed to updates for " ++ username ++ "!"))
  else (s1, none)

/-- Model of `unsubscribe`: if the chat id is a key of
`subscribed_users`, delete it, save and confirm; otherwise reply that
the user is not subscribed.  `saveOk = false` models `save_data`
raising after the deletion. -/
def unsubscribe (saveOk : Bool) (s : BotState) (chat_id : PyKey) :
    BotState × Option String :=
  match dlookup s.subscribed_users chat_id with
  | some _ =>
    let s1 : BotState :=
      { s with subscribed_users := derase s.subscribed_users chat_id }
    if saveOk then (s1, some "You have been unsubscribed from notifications.")
    else (s1, none)
  | none => (s, some "You are not subscribed.")

/-- Model of `list_subscriptions`: the reply text for a chat id. -/
def list_subscriptions (s : BotState) (chat_id : PyKey) : String :=
  match dlookup s.subscribed_users chat_id with
  | some username => "You are subscribed to updates for: " ++ username
  | none => "You are not subscribed to any usernames."

/-- Model of the loop body of `check_for_new_movies` over the remaining
`subscribed_users.items()` pairs.  For each `(chat_id, username)` pair:
fetch the latest movie; if there is none, move on; if its title differs
from `last_logged_movies.get(username)`, send the notification, record
the new marker and continue.  `send` returning `false` models
`send_message` raising, which aborts the whole handler (the final `Bool`
is `false` and no further pair is processed); the marker line after the
failed send does not run. -/
def check_pairs (f : String → List Entry) (send : PyKey → String → Bool) :
    List (PyKey × String) → List (String × String) → List Notif →
    List (String × String) × List Notif × Bool
  | [], last, notifs => (last, notifs, true)
  | (chat_id, username) :: rest, last, notifs =>
    match get_latest_movies f (construct_rss_url username) 1 with
    | [] => check_pairs f send rest last notifs
    | (title, link) :: _ =>
      if dlookup last username ≠ some title then
        if send chat_id (notif_text ⟨chat_id, username, title, link⟩) then
          check_pairs f send rest (dinsert last username title)
            (notifs ++ [⟨chat_id, username, title, link⟩])
        else (last, notifs, false)
      else check_pairs f send rest last notifs

/-- Model of one run of `check_for_new_movies` (a tick): iterate
`check_pairs` over the current subscription registry, returning the new
state, the notifications sent, and whether the tick ran to completion
without a delivery exception. -/
def check_for_new_movies (f : String → List Entry) (send : PyKey → String → Bool)
    (s : BotState) : BotState × List Notif × Bool :=
  ({ s with
      last_logged_movies :=
        (check_pairs f send s.subscribed_users s.last_logged_movies []).1 },
    (check_pairs f send s.subscribed_users s.last_logged_movies []).2.1,
    (check_pairs f send s.subscribed_users s.last_logged_movies []).2.2)

/-- Model of the loop body of `check_for_new_movies` with the
`save_data()` call after the marker assignment made explicit:
`saveOk = false` models `save_data` raising.  The dictionary assignment
`last_logged_movies[username] = title` precedes the save, so when the
save raises, the marker mutation has already happened in memory and the
exception aborts the rest of the pass; with `saveOk = true` this agrees
with `check_pairs` (see `check_pairs_fallible_save_true`). -/
def check_pairs_fallible_save (f : String → List Entry)
    (send : PyKey → String → Bool) (saveOk : Bool) :
    List (PyKey × String) → List (String × String) → List Notif →
    List (String × String) × List Notif × Bool
  | [], last, notifs => (last, notifs, true)
  | (chat_id, username) :: rest, last, notifs =>
    match get_latest_movies f (construct_rss_url username) 1 with
    | [] => check_pairs_fallible_save f send saveOk rest last notifs
    | (title, link) :: _ =>
      if dlookup last username ≠ some title then
        if send chat_id (notif_text ⟨chat_id, username, title, link⟩) then
          if saveOk then
            check_pairs_fallible_save f send saveOk rest
              (dinsert last username title)
              (notifs ++ [⟨chat_id, username, title, link⟩])
          else (dinsert last username title,
            notifs ++ [⟨chat_id, username, title, link⟩], false)
        else (last, notifs, false)
      else check_pairs_fallible_save f send saveOk rest last notifs

/-- Delivery that always succeeds (no `send_message` exception). -/
def sendOk : PyKey → String → Bool := fun _ _ => true

/-- The chat id of the first pair of the subscription registry (in
dictionary iteration order) watching a given username. -/
def firstWatcher (u : String) : List (PyKey × String) → Option PyKey
  | [] => none
  | (c, w) :: rest => if w = u then some c else firstWatcher u rest

/-- The notifications of a list that concern a given watched username. -/
def watchNotifs (u : String) (ns : List Notif) : List Notif :=
  ns.filter (fun n => decide (n.username = u))

/-- How `json.dump` serialises a dictionary key: int keys are written as
their decimal string, string keys as themselves. -/
def jsonKeyRepr : PyKey → String
  | .int n => toString n
  | .str s => s

/-- Build a CPython dict from a list of key/value pairs in order, as
`json.load` does for a JSON object: a repeated key keeps its first
position and its last value. -/
def dictFromPairs : List (String × String) → List (String × String) :=
  fun l => l.foldl (fun d kv => dinsert d kv.1 kv.2) []

/-- Model of `save_data` followed by `load_data` on the subscribed-users
registry: `json.dump` writes each key through `jsonKeyRepr` and the
value unchanged; `json.load` parses the object back into a dict whose
keys are all strings. -/
def save_then_load_users (l : List (PyKey × String)) : List (PyKey × String) :=
  (dictFromPairs (l.map (fun kv => (jsonKeyRepr kv.1, kv.2)))).map
    (fun kv => (PyKey.str kv.1, kv.2))

/-- Model of `save_data` followed by `load_data` on the last-logged
registry, whose keys are already strings. -/
def save_then_load_movies (l : List (String × String)) : List (String × String) :=
  dictFromPairs l

/-- A concrete feed: the identity `alice` has logged `Movie A`; every
other url yields no entries. -/
def feedA : String → List Entry := fun url =>
  if url = construct_rss_url "alice" then [⟨"Movie A", "http://x/1"⟩] else []

/-- A concrete feed with entries for both `alice` and `bob`. -/
def feedAB : String → List Entry := fun url =>
  if url = construct_rss_url "alice" then [⟨"Movie A", "http://x/1"⟩]
  else if url = construct_rss_url "bob" then [⟨"Movie B", "http://x/2"⟩]
  else []

/-- Delivery that raises exactly for chat id `1` (for example, that user
blocked the bot) and succeeds for everyone else. -/
def sendFail1 : PyKey → String → Bool := fun c _ => decide (c ≠ PyKey.int 1)

/-- Two chats, both subscribed to `alice`; nothing notified yet. -/
def stateTwoWatchers : BotState :=
  ⟨[(PyKey.int 1, "alice"), (PyKey.int 2, "alice")], []⟩

/-- Chat `1` subscribed to `alice` and chat `2` to `bob`; nothing
notified yet. -/
def stateAliceBob : BotState :=
  ⟨[(PyKey.int 1, "alice"), (PyKey.int 2, "bob")], []⟩

@[simp] theorem watchNotifs_nil (u : String) : watchNotifs u [] = [] := rfl

theorem watchNotifs_append (u : String) (a b : List Notif) :
    watchNotifs u (a ++ b) = watchNotifs u a ++ watchNotifs u b := by
  simp [watchNotifs, List.filter_append]

theorem watchNotifs_singleton_of_eq (u : String) (n : Notif) (h : n.username = u) :
    watchNotifs u [n] = [n] := by
  simp [watchNotifs, h]

theorem watchNotifs_singleton_of_ne (u : String) (n : Notif) (h : ¬ n.username = u) :
    watchNotifs u [n] = [] := by
  simp [watchNotifs, h]

theorem get_latest_movies_of_head (f : String → List Entry) (url : String)
    (e : Entry) (tl : List Entry) (hf : f url = e :: tl) :
    get_latest_movies f url 1 = [(e.title, e.link)] := by
  simp [get_latest_movies, hf]

/-- Once the marker of a username equals the title the feed currently
serves for it, processing any further subscription pairs leaves that
marker unchanged and sends no further notification about that username,
whatever the other pairs do. -/
theorem check_pairs_marker_stable (f : String → List Entry)
    (send : PyKey → String → Bool) (u : String) (e : Entry) (tl : List Entry)
    (hf : f (construct_rss_url u) = e :: tl) :
    ∀ (pairs : List (PyKey × String)) (last : List (String × String))
      (notifs : List Notif),
      dlookup last u = some e.title →
      dlookup (check_pairs f send pairs last notifs).1 u = some e.title ∧
      watchNotifs u (check_pairs f send pairs last notifs).2.1 =
        watchNotifs u notifs := by
  intro pairs
  induction pairs with
  | nil => intro last notifs h; exact ⟨h, rfl⟩
  | cons p rest ih =>
    obtain ⟨c, w⟩ := p
    intro last notifs h
    by_cases hw : w = u
    · rw [hw]
      have hm := get_latest_movies_of_head f (construct_rss_url u) e tl hf
      simp only [check_pairs, hm]
      rw [if_neg (not_not_intro h)]
      exact ih last notifs h
    · cases hm : get_latest_movies f (construct_rss_url w) 1 with
      | nil =>
        simp only [check_pairs, hm]
        exact ih last notifs h
      | cons tp tl2 =>
        obtain ⟨t', l'⟩ := tp
        simp only [check_pairs, hm]
        by_cases hcond : dlookup last w = some t'
        · rw [if_neg (not_not_intro hcond)]
          exact ih last notifs h
        · rw [if_pos hcond]
          cases hs : send c (notif_text ⟨c, w, t', l'⟩) with
          | false =>
            simp only [hs, Bool.false_eq_true, if_false]
            exact ⟨h, trivial⟩
          | true =>
            simp only [hs, if_true]
            have h' : dlookup (dinsert last w t') u = some e.title := by
              rw [dlookup_dinsert_ne last w u t' hw]
              exact h
            have hrec := ih (dinsert last w t') (notifs ++ [⟨c, w, t', l'⟩]) h'
            rw [watchNotifs_append,
              watchNotifs_singleton_of_ne u ⟨c, w, t', l'⟩ hw] at hrec
            simpa using hrec

/-- In a tick where every delivery succeeds, if the feed serves an entry
for username `u` whose title differs from the current marker, then the
pair of the first watcher of `u` sends exactly one notification about
`u` — built from the watcher's chat id and the entry — and sets the
marker, which suppresses every later watcher of `u` in the same pass. -/
theorem check_pairs_first_watcher (f : String → List Entry) (u : String)
    (e : Entry) (tl : List Entry) (hf : f (construct_rss_url u) = e :: tl) :
    ∀ (pairs : List (PyKey × String)) (last : List (String × String))
      (notifs : List Notif) (c : PyKey),
      firstWatcher u pairs = some c →
      dlookup last u ≠ some e.title →
      dlookup (check_pairs f sendOk pairs last notifs).1 u = some e.title ∧
      watchNotifs u (check_pairs f sendOk pairs last notifs).2.1 =
        watchNotifs u notifs ++ [⟨c, u, e.title, e.link⟩] := by
  intro pairs
  induction pairs with
  | nil => intro last notifs c hc hne; simp [firstWatcher] at hc
  | cons p rest ih =>
    obtain ⟨c', w⟩ := p
    intro last notifs c hc hne
    by_cases hw : w = u
    · rw [hw] at hc ⊢
      have hc' : c' = c := by simpa [firstWatcher] using hc
      subst hc'
      have hm := get_latest_movies_of_head f (construct_rss_url u) e tl hf
      simp only [check_pairs, hm]
      rw [if_pos hne]
      simp only [sendOk, if_true]
      have hA := check_pairs_marker_stable f sendOk u e tl hf rest
        (dinsert last u e.title) (notifs ++ [⟨c', u, e.title, e.link⟩])
        (dlookup_dinsert_self last u e.title)
      refine ⟨hA.1, ?_⟩
      rw [hA.2, watchNotifs_append,
        watchNotifs_singleton_of_eq u ⟨c', u, e.title, e.link⟩ rfl]
    · simp only [firstWatcher, if_neg hw] at hc
      cases hm : get_latest_movies f (construct_rss_url w) 1 with
      | nil =>
        simp only [check_pairs, hm]
        exact ih last notifs c hc hne
      | cons tp tl2 =>
        obtain ⟨t', l'⟩ := tp
        simp only [check_pairs, hm]
        by_cases hcond : dlookup last w = some t'
        · rw [if_neg (not_not_intro hcond)]
          exact ih last notifs c hc hne
        · rw [if_pos hcond]
          simp only [sendOk, if_true]
          have hne' : dlookup (dinsert last w t') u ≠ some e.title := by
            rw [dlookup_dinsert_ne last w u t' hw]
            exact hne
          have hrec := ih (dinsert last w t') (notifs ++ [⟨c', w, t', l'⟩]) c hc hne'
          rw [watchNotifs_append,
            watchNotifs_singleton_of_ne u ⟨c', w, t', l'⟩ hw] at hrec
          simpa using hrec

/-- C1 counterexample: with `LastSeenRegistry` empty, chats `1` and `2`
both subscribed to `alice`, and the feed serving `Movie A` for `alice`,
one tick sends a single notification — to chat `1` only — because the
first pair already advances the shared marker; the claim that every
destination subscribed to the identity is notified fails for chat `2`. -/
theorem two_watchers_only_first_notified :
    check_for_new_movies feedA sendOk stateTwoWatchers =
      (⟨[(PyKey.int 1, "alice"), (PyKey.int 2, "alice")], [("alice", "Movie A")]⟩,
        [⟨PyKey.int 1, "alice", "Movie A", "http://x/1"⟩], true) := by
  decide

/-- C1 (amended): when `LastSeenRegistry[u]` is absent and the feed
serves a new item for `u`, one tick (with deliveries succeeding) emits
exactly one notification about `u`, addressed to the first destination
in subscription-registry iteration order that watches `u`, and sets
`LastSeenRegistry[u]` to the item's title; destinations later in the
iteration order watching `u` receive nothing in that tick. -/
theorem novelty_notifies_first_watcher (f : String → List Entry) (s : BotState)
    (u : String) (e : Entry) (tl : List Entry) (c : PyKey)
    (hf : f (construct_rss_url u) = e :: tl)
    (habs : dlookup s.last_logged_movies u = none)
    (hw : firstWatcher u s.subscribed_users = some c) :
    watchNotifs u (check_for_new_movies f sendOk s).2.1 =
      [⟨c, u, e.title, e.link⟩] ∧
    dlookup (check_for_new_movies f sendOk s).1.last_logged_movies u =
      some e.title := by
  have hne : dlookup s.last_logged_movies u ≠ some e.title := by
    rw [habs]
    exact fun hx => Option.noConfusion hx
  have hB := check_pairs_first_watcher f u e tl hf s.subscribed_users
    s.last_logged_movies [] c hw hne
  refine ⟨?_, hB.1⟩
  have h2 := hB.2
  rw [watchNotifs_nil] at h2
  simpa [check_for_new_movies] using h2

/-- C1 witness: instantiation of the amended theorem at the concrete
two-watcher state. -/
theorem novelty_notifies_first_watcher_witness :
    feedA (construct_rss_url "alice") = (⟨"Movie A", "http://x/1"⟩ : Entry) :: [] ∧
    dlookup stateTwoWatchers.last_logged_movies "alice" = none ∧
    firstWatcher "alice" stateTwoWatchers.subscribed_users = some (PyKey.int 1) ∧
    (watchNotifs "alice" (check_for_new_movies feedA sendOk stateTwoWatchers).2.1 =
        [⟨PyKey.int 1, "alice", "Movie A", "http://x/1"⟩] ∧
      dlookup (check_for_new_movies feedA sendOk
          stateTwoWatchers).1.last_logged_movies "alice" = some "Movie A") :=
  ⟨by decide, by decide, by decide,
    novelty_notifies_first_watcher feedA stateTwoWatchers "alice"
      ⟨"Movie A", "http://x/1"⟩ [] (PyKey.int 1) (by decide) (by decide) (by decide)⟩

/-- C2: if some destination watches `u`, the feed serves an item for `u`
whose title differs from the current marker, and the feed is the same on
both runs, then running `tick()` twice emits exactly one notification
about `u` in total — during the first run — and the second run emits
none. -/
theorem dedup_across_two_ticks (f : String → List Entry) (s : BotState)
    (u : String) (e : Entry) (tl : List Entry) (c : PyKey)
    (hf : f (construct_rss_url u) = e :: tl)
    (hne : dlookup s.last_logged_movies u ≠ some e.title)
    (hw : firstWatcher u s.subscribed_users = some c) :
    watchNotifs u (check_for_new_movies f sendOk s).2.1 =
      [⟨c, u, e.title, e.link⟩] ∧
    watchNotifs u
      (check_for_new_movies f sendOk (check_for_new_movies f sendOk s).1).2.1 = [] ∧
    (watchNotifs u (check_for_new_movies f sendOk s).2.1).length +
      (watchNotifs u
        (check_for_new_movies f sendOk (check_for_new_movies f sendOk s).1).2.1).length
      = 1 := by
  have hB := check_pairs_first_watcher f u e tl hf s.subscribed_users
    s.last_logged_movies [] c hw hne
  have h1 : watchNotifs u (check_for_new_movies f sendOk s).2.1 =
      [⟨c, u, e.title, e.link⟩] := by
    have h2 := hB.2
    rw [watchNotifs_nil] at h2
    simpa [check_for_new_movies] using h2
  have hmark : dlookup (check_for_new_movies f sendOk s).1.last_logged_movies u =
      some e.title := hB.1
  have hA := check_pairs_marker_stable f sendOk u e tl hf
    (check_for_new_movies f sendOk s).1.subscribed_users
    (check_for_new_movies f sendOk s).1.last_logged_movies [] hmark
  have h2 : watchNotifs u
      (check_for_new_movies f sendOk (check_for_new_movies f sendOk s).1).2.1 = [] := by
    have := hA.2
    rw [watchNotifs_nil] at this
    simpa [check_for_new_movies] using this
  refine ⟨h1, h2, ?_⟩
  rw [h1, h2]
  rfl

/-- C2 witness: instantiation at a single watcher of `alice` with an
empty marker registry and the fixed feed `feedA`. -/
theorem dedup_across_two_ticks_witness :
    feedA (construct_rss_url "alice") = (⟨"Movie A", "http://x/1"⟩ : Entry) :: [] ∧
    dlookup (⟨[(PyKey.int 7, "alice")], []⟩ : BotState).last_logged_movies "alice" ≠
      some "Movie A" ∧
    firstWatcher "alice"
      (⟨[(PyKey.int 7, "alice")], []⟩ : BotState).subscribed_users =
      some (PyKey.int 7) ∧
    (watchNotifs "alice"
        (check_for_new_movies feedA sendOk (⟨[(PyKey.int 7, "alice")], []⟩ : BotState)).2.1 =
        [⟨PyKey.int 7, "alice", "Movie A", "http://x/1"⟩] ∧
      watchNotifs "alice"
        (check_for_new_movies feedA sendOk
          (check_for_new_movies feedA sendOk
            (⟨[(PyKey.int 7, "alice")], []⟩ : BotState)).1).2.1 = [] ∧
      (watchNotifs "alice"
          (check_for_new_movies feedA sendOk
            (⟨[(PyKey.int 7, "alice")], []⟩ : BotState)).2.1).length +
        (watchNotifs "alice"
          (check_for_new_movies feedA sendOk
            (check_for_new_movies feedA sendOk
              (⟨[(PyKey.int 7, "alice")], []⟩ : BotState)).1).2.1).length = 1) :=
  ⟨by decide, by decide, by decide,
    dedup_across_two_ticks feedA (⟨[(PyKey.int 7, "alice")], []⟩ : BotState)
      "alice" ⟨"Movie A", "http://x/1"⟩ [] (PyKey.int 7)
      (by decide) (by decide) (by decide)⟩

/-- C6: a pair whose fetch yields no items is skipped silently: a tick
starting at that pair behaves exactly as the tick over the remaining
pairs — no notification for the pair, no registry change from it, and
the rest of the pairs are still processed as usual. -/
theorem empty_fetch_skips_pair (f : String → List Entry)
    (send : PyKey → String → Bool) (c : PyKey) (u : String)
    (rest : List (PyKey × String)) (last : List (String × String))
    (notifs : List Notif) (hf : f (construct_rss_url u) = []) :
    check_pairs f send ((c, u) :: rest) last notifs =
      check_pairs f send rest last notifs := by
  have hm : get_latest_movies f (construct_rss_url u) 1 = [] := by
    simp [get_latest_movies, hf]
  simp only [check_pairs, hm]

/-- C6 witness: chat `2`'s subscription to `bob` (whose fetch is empty
under `feedA`) is skipped, while chat `1`'s subscription to `alice` is
still processed and notified. -/
theorem empty_fetch_skips_pair_witness :
    feedA (construct_rss_url "bob") = [] ∧
    check_pairs feedA sendOk
        [(PyKey.int 2, "bob"), (PyKey.int 1, "alice")] [] [] =
      check_pairs feedA sendOk [(PyKey.int 1, "alice")] [] [] :=
  ⟨by decide,
    empty_fetch_skips_pair feedA sendOk (PyKey.int 2) "bob"
      [(PyKey.int 1, "alice")] [] [] (by decide)⟩

/-- C3 (code bug): saving a subscribed-users registry keyed by the int
chat id `42` (as produced by `update.message.chat_id`) and loading it
back yields a registry keyed by the string `"42"`: `json.dump`
stringifies int dictionary keys and `json.load` returns string keys, so
the round trip is not deep-equal to the saved registries.  (String-keyed
data, such as the last-seen registry, does survive the round trip.) -/
theorem int_keys_become_strings_after_roundtrip :
    save_then_load_users [(PyKey.int 42, "alice")] = [(PyKey.str "42", "alice")] ∧
    save_then_load_movies [("alice", "Movie A")] = [("alice", "Movie A")] ∧
    [(PyKey.str "42", "alice")] ≠ [(PyKey.int 42, "alice")] := by
  refine ⟨?_, ?_, ?_⟩ <;> decide

/-- C4 counterexample: chat `1` watches `alice`, chat `2` watches `bob`,
both feeds serve new items, and delivery to chat `1` raises.  The whole
tick aborts: no notification is recorded, chat `2`'s pair is never
processed and neither marker is advanced — the delivery failure is not
isolated to its own pair. -/
theorem delivery_failure_aborts_tick_example :
    check_for_new_movies feedAB sendFail1 stateAliceBob =
      (stateAliceBob, [], false) := by
  decide

/-- C4 (amended): when delivery for the pair at hand raises, the
exception propagates out of `check_for_new_movies`: the failing pair's
marker is not advanced, its notification is not recorded, and none of
the remaining pairs is processed; only the effects of pairs handled
before the failure remain. -/
theorem delivery_failure_aborts_tick (f : String → List Entry)
    (send : PyKey → String → Bool) (c : PyKey) (u : String)
    (rest : List (PyKey × String)) (last : List (String × String))
    (notifs : List Notif) (t l : String) (tl : List (String × String))
    (hm : get_latest_movies f (construct_rss_url u) 1 = (t, l) :: tl)
    (hne : dlookup last u ≠ some t)
    (hs : send c (notif_text ⟨c, u, t, l⟩) = false) :
    check_pairs f send ((c, u) :: rest) last notifs = (last, notifs, false) := by
  simp only [check_pairs, hm]
  rw [if_pos hne]
  simp [hs]

/-- C4 witness: instantiation of the amended theorem at the concrete
alice/bob state with delivery failing for chat `1`. -/
theorem delivery_failure_aborts_tick_witness :
    get_latest_movies feedAB (construct_rss_url "alice") 1 =
      ("Movie A", "http://x/1") :: [] ∧
    dlookup ([] : List (String × String)) "alice" ≠ some "Movie A" ∧
    sendFail1 (PyKey.int 1)
      (notif_text ⟨PyKey.int 1, "alice", "Movie A", "http://x/1"⟩) = false ∧
    check_pairs feedAB sendFail1
        [(PyKey.int 1, "alice"), (PyKey.int 2, "bob")] [] [] = ([], [], false) :=
  ⟨by decide, by decide, by decide,
    delivery_failure_aborts_tick feedAB sendFail1 (PyKey.int 1) "alice"
      [(PyKey.int 2, "bob")] [] [] "Movie A" "http://x/1" []
      (by decide) (by decide) (by decide)⟩

/-- When every save succeeds, the save-explicit loop model coincides
with `check_pairs`. -/
theorem check_pairs_fallible_save_true (f : String → List Entry)
    (send : PyKey → String → Bool) :
    ∀ (pairs : List (PyKey × String)) (last : List (String × String))
      (notifs : List Notif),
      check_pairs_fallible_save f send true pairs last notifs =
        check_pairs f send pairs last notifs := by
  intro pairs
  induction pairs with
  | nil => intro last notifs; rfl
  | cons p rest ih =>
    obtain ⟨c, w⟩ := p
    intro last notifs
    cases hm : get_latest_movies f (construct_rss_url w) 1 with
    | nil =>
      simp only [check_pairs_fallible_save, check_pairs, hm]
      exact ih last notifs
    | cons tp tl2 =>
      obtain ⟨t', l'⟩ := tp
      simp only [check_pairs_fallible_save, check_pairs, hm]
      by_cases hcond : dlookup last w = some t'
      · rw [if_neg (not_not_intro hcond), if_neg (not_not_intro hcond)]
        exact ih last notifs
      · rw [if_pos hcond, if_pos hcond]
        cases hs : send c (notif_text ⟨c, w, t', l'⟩) with
        | false => simp [hs]
        | true =>
          simp only [hs, if_true]
          exact ih (dinsert last w t') (notifs ++ [⟨c, w, t', l'⟩])

/-- C5 counterexample: subscribing chat `42` to `alice` while
`save_data` fails still leaves the in-memory subscription registry
mutated — the dictionary assignment precedes `save_data()` and nothing
rolls it back — so the mutation is committed in memory despite the
failed save, contrary to the claim. -/
theorem failed_save_leaves_memory_mutated_example :
    subscribe false (⟨[], []⟩ : BotState) (PyKey.int 42) "alice" =
      (⟨[(PyKey.int 42, "alice")], []⟩, none) := by
  decide

/-- C5 (amended): for each of the three mutating operations —
`subscribe`, `unsubscribe`, and the tick's new-item detection — the
in-memory mutation happens before `save_data()`; when the save fails,
the exception propagates (no reply is sent; the rest of the tick does
not run) but the mutation stays committed in memory with no rollback,
so in-memory state silently diverges from durable state. -/
theorem failed_save_leaves_memory_mutated (s : BotState) (c : PyKey) (u : String)
    (f : String → List Entry) (send : PyKey → String → Bool)
    (rest : List (PyKey × String)) (last : List (String × String))
    (notifs : List Notif) (t l : String) (tl : List (String × String)) :
    ((subscribe false s c u).1.subscribed_users = dinsert s.subscribed_users c u ∧
      (subscribe false s c u).2 = none) ∧
    (dlookup s.subscribed_users c ≠ none →
      (unsubscribe false s c).1.subscribed_users = derase s.subscribed_users c ∧
      (unsubscribe false s c).2 = none) ∧
    (get_latest_movies f (construct_rss_url u) 1 = (t, l) :: tl →
      dlookup last u ≠ some t →
      send c (notif_text ⟨c, u, t, l⟩) = true →
      check_pairs_fallible_save f send false ((c, u) :: rest) last notifs =
        (dinsert last u t, notifs ++ [⟨c, u, t, l⟩], false)) := by
  refine ⟨⟨rfl, rfl⟩, ?_, ?_⟩
  · intro h
    cases hl : dlookup s.subscribed_users c with
    | none => exact absurd hl h
    | some w => simp [unsubscribe, hl]
  · intro hm hne hs
    simp only [check_pairs_fallible_save, hm]
    rw [if_pos hne]
    simp [hs]

/-- C5 witness: instantiation at a concrete subscribed state, with the
tick's marker update exercised on `alice`'s new `Movie A`. -/
theorem failed_save_leaves_memory_mutated_witness :
    ((subscribe false (⟨[(PyKey.int 42, "alice")], []⟩ : BotState)
        (PyKey.int 42) "alice").1.subscribed_users =
      dinsert [(PyKey.int 42, "alice")] (PyKey.int 42) "alice" ∧
      (subscribe false (⟨[(PyKey.int 42, "alice")], []⟩ : BotState)
        (PyKey.int 42) "alice").2 = none) ∧
    dlookup (⟨[(PyKey.int 42, "alice")], []⟩ : BotState).subscribed_users
        (PyKey.int 42) ≠ none ∧
    ((unsubscribe false (⟨[(PyKey.int 42, "alice")], []⟩ : BotState)
        (PyKey.int 42)).1.subscribed_users =
      derase [(PyKey.int 42, "alice")] (PyKey.int 42) ∧
      (unsubscribe false (⟨[(PyKey.int 42, "alice")], []⟩ : BotState)
        (PyKey.int 42)).2 = none) ∧
    get_latest_movies feedA (construct_rss_url "alice") 1 =
      ("Movie A", "http://x/1") :: [] ∧
    dlookup ([] : List (String × String)) "alice" ≠ some "Movie A" ∧
    sendOk (PyKey.int 42)
      (notif_text ⟨PyKey.int 42, "alice", "Movie A", "http://x/1"⟩) = true ∧
    check_pairs_fallible_save feedA sendOk false [(PyKey.int 42, "alice")] [] [] =
      (dinsert [] "alice" "Movie A",
        [⟨PyKey.int 42, "alice", "Movie A", "http://x/1"⟩], false) :=
  ⟨(failed_save_leaves_memory_mutated
      (⟨[(PyKey.int 42, "alice")], []⟩ : BotState) (PyKey.int 42) "alice"
      feedA sendOk [] [] [] "Movie A" "http://x/1" []).1,
    by decide,
    (failed_save_leaves_memory_mutated
      (⟨[(PyKey.int 42, "alice")], []⟩ : BotState) (PyKey.int 42) "alice"
      feedA sendOk [] [] [] "Movie A" "http://x/1" []).2.1 (by decide),
    by decide, by decide, by decide,
    (failed_save_leaves_memory_mutated
      (⟨[(PyKey.int 42, "alice")], []⟩ : BotState) (PyKey.int 42) "alice"
      feedA sendOk [] [] [] "Movie A" "http://x/1" []).2.2
      (by decide) (by decide) (by decide)⟩

/-- C7: `subscribe` upserts the watched identity for the destination,
and calling it twice with `"alice"` is idempotent: the second call
leaves the registry unchanged, mapping `d` to `"alice"` with exactly one
entry for `d`. -/
theorem subscribe_upsert_idempotent (s : BotState) (d : PyKey) (u : String)
    (hnd : (dkeys s.subscribed_users).Nodup) :
    dlookup ((subscribe true s d u).1).subscribed_users d = some u ∧
    ((subscribe true ((subscribe true s d "alice").1) d "alice").1).subscribed_users
      = ((subscribe true s d "alice").1).subscribed_users ∧
    dlookup
      ((subscribe true ((subscribe true s d "alice").1) d "alice").1).subscribed_users
      d = some "alice" ∧
    countKey
      ((subscribe true ((subscribe true s d "alice").1) d "alice").1).subscribed_users
      d = 1 := by
  have hidem : dinsert (dinsert s.subscribed_users d "alice") d "alice" =
      dinsert s.subscribed_users d "alice" :=
    dinsert_dinsert_self s.subscribed_users d "alice"
  refine ⟨?_, ?_, ?_, ?_⟩
  · show dlookup (dinsert s.subscribed_users d u) d = some u
    exact dlookup_dinsert_self s.subscribed_users d u
  · show dinsert (dinsert s.subscribed_users d "alice") d "alice" =
      dinsert s.subscribed_users d "alice"
    exact hidem
  · show dlookup (dinsert (dinsert s.subscribed_users d "alice") d "alice") d =
      some "alice"
    rw [hidem]
    exact dlookup_dinsert_self s.subscribed_users d "alice"
  · show countKey (dinsert (dinsert s.subscribed_users d "alice") d "alice") d = 1
    rw [hidem]
    exact countKey_dinsert_self hnd d "alice"

/-- C7 witness: instantiation at a registry already holding another
subscriber. -/
theorem subscribe_upsert_idempotent_witness :
    (dkeys (⟨[(PyKey.int 5, "bob")], []⟩ : BotState).subscribed_users).Nodup ∧
    (dlookup ((subscribe true (⟨[(PyKey.int 5, "bob")], []⟩ : BotState)
        (PyKey.int 42) "carol").1).subscribed_users (PyKey.int 42) = some "carol" ∧
      ((subscribe true ((subscribe true (⟨[(PyKey.int 5, "bob")], []⟩ : BotState)
          (PyKey.int 42) "alice").1) (PyKey.int 42) "alice").1).subscribed_users
        = ((subscribe true (⟨[(PyKey.int 5, "bob")], []⟩ : BotState)
          (PyKey.int 42) "alice").1).subscribed_users ∧
      dlookup ((subscribe true ((subscribe true
          (⟨[(PyKey.int 5, "bob")], []⟩ : BotState) (PyKey.int 42) "alice").1)
          (PyKey.int 42) "alice").1).subscribed_users (PyKey.int 42) =
        some "alice" ∧
      countKey ((subscribe true ((subscribe true
          (⟨[(PyKey.int 5, "bob")], []⟩ : BotState) (PyKey.int 42) "alice").1)
          (PyKey.int 42) "alice").1).subscribed_users (PyKey.int 42) = 1) :=
  ⟨by decide,
    subscribe_upsert_idempotent (⟨[(PyKey.int 5, "bob")], []⟩ : BotState)
      (PyKey.int 42) "carol" (by decide)⟩

/-- C8: after `unsubscribe(d)` the entry for `d` is gone and `list(d)`
reports the not-subscribed message; a second `unsubscribe(d)` is a no-op
that returns the same state with the "not subscribed" reply instead of
an error. -/
theorem unsubscribe_then_list (s : BotState) (d : PyKey)
    (hnd : (dkeys s.subscribed_users).Nodup) :
    dlookup ((unsubscribe true s d).1).subscribed_users d = none ∧
    list_subscriptions ((unsubscribe true s d).1) d =
      "You are not subscribed to any usernames." ∧
    unsubscribe true ((unsubscribe true s d).1) d =
      ((unsubscribe true s d).1, some "You are not subscribed.") := by
  have hnone : dlookup ((unsubscribe true s d).1).subscribed_users d = none := by
    cases hl : dlookup s.subscribed_users d with
    | none => simp [unsubscribe, hl]
    | some w =>
      have hs1 : ((unsubscribe true s d).1).subscribed_users =
          derase s.subscribed_users d := by
        simp [unsubscribe, hl]
      rw [hs1]
      exact dlookup_derase_self hnd d
  have hnop : ∀ s' : BotState, dlookup s'.subscribed_users d = none →
      unsubscribe true s' d = (s', some "You are not subscribed.") := by
    intro s' h'
    simp [unsubscribe, h']
  refine ⟨hnone, ?_, hnop ((unsubscribe true s d).1) hnone⟩
  simp [list_subscriptions, hnone]

/-- C8 witness: instantiation at a state where chat `42` is subscribed
to `alice` and a marker for `alice` exists. -/
theorem unsubscribe_then_list_witness :
    (dkeys (⟨[(PyKey.int 42, "alice")], [("alice", "Movie A")]⟩ :
        BotState).subscribed_users).Nodup ∧
    (dlookup ((unsubscribe true
        (⟨[(PyKey.int 42, "alice")], [("alice", "Movie A")]⟩ : BotState)
        (PyKey.int 42)).1).subscribed_users (PyKey.int 42) = none ∧
      list_subscriptions ((unsubscribe true
        (⟨[(PyKey.int 42, "alice")], [("alice", "Movie A")]⟩ : BotState)
        (PyKey.int 42)).1) (PyKey.int 42) =
        "You are not subscribed to any usernames." ∧
      unsubscribe true ((unsubscribe true
          (⟨[(PyKey.int 42, "alice")], [("alice", "Movie A")]⟩ : BotState)
          (PyKey.int 42)).1) (PyKey.int 42) =
        ((unsubscribe true
          (⟨[(PyKey.int 42, "alice")], [("alice", "Movie A")]⟩ : BotState)
          (PyKey.int 42)).1, some "You are not subscribed.")) :=
  ⟨by decide,
    unsubscribe_then_list
      (⟨[(PyKey.int 42, "alice")], [("alice", "Movie A")]⟩ : BotState)
      (PyKey.int 42) (by decide)⟩

/-- C9: `get_latest_movies` returns the `(title, link)` projections of
the first `count` feed entries in feed order (newest first as served by
the feed), so its length is `min count n` and at most `count`, and it is
empty whenever the feed has no entries — which is also how fetch
failures surface, since `feedparser` yields no entries on failure. -/
theorem get_latest_movies_spec (f : String → List Entry) (url : String)
    (count : Nat) :
    get_latest_movies f url count =
      ((f url).take count).map (fun e => (e.title, e.link)) ∧
    (get_latest_movies f url count).length = min count (f url).length ∧
    (get_latest_movies f url count).length ≤ count ∧
    (f url = [] → get_latest_movies f url count = []) := by
  have h1 : get_latest_movies f url count =
      ((f url).take count).map (fun e => (e.title, e.link)) := by
    by_cases h : f url = []
    · simp [get_latest_movies, h]
    · simp [get_latest_movies, h]
  refine ⟨h1, ?_, ?_, ?_⟩
  · rw [h1, List.length_map, List.length_take]
  · rw [h1, List.length_map, List.length_take]
    exact Nat.min_le_left count (f url).length
  · intro h
    simp [get_latest_movies, h]

/-- C9 witness: instantiation at a url whose feed is empty. -/
theorem get_latest_movies_spec_witness :
    get_latest_movies feedA (construct_rss_url "bob") 5 =
      ((feedA (construct_rss_url "bob")).take 5).map (fun e => (e.title, e.link)) ∧
    feedA (construct_rss_url "bob") = [] ∧
    get_latest_movies feedA (construct_rss_url "bob") 5 = [] :=
  ⟨(get_latest_movies_spec feedA (construct_rss_url "bob") 5).1, by decide,
    (get_latest_movies_spec feedA (construct_rss_url "bob") 5).2.2.2 (by decide)⟩

theorem check_pairs_preserves_marker_keys (f : String → List Entry)
    (send : PyKey → String → Bool) :
    ∀ (pairs : List (PyKey × String)) (last : List (String × String))
      (notifs : List Notif) (k : String),
      dlookup last k ≠ none →
      dlookup (check_pairs f send pairs last notifs).1 k ≠ none := by
  intro pairs
  induction pairs with
  | nil => intro last notifs k h; exact h
  | cons p rest ih =>
    obtain ⟨c, w⟩ := p
    intro last notifs k h
    cases hm : get_latest_movies f (construct_rss_url w) 1 with
    | nil =>
      simp only [check_pairs, hm]
      exact ih last notifs k h
    | cons tp tl2 =>
      obtain ⟨t', l'⟩ := tp
      simp only [check_pairs, hm]
      by_cases hcond : dlookup last w = some t'
      · rw [if_neg (not_not_intro hcond)]
        exact ih last notifs k h
      · rw [if_pos hcond]
        cases hs : send c (notif_text ⟨c, w, t', l'⟩) with
        | false =>
          simp only [hs, Bool.false_eq_true, if_false]
          exact h
        | true =>
          simp only [hs, if_true]
          exact ih (dinsert last w t') (notifs ++ [⟨c, w, t', l'⟩]) k
            (dlookup_dinsert_ne_none last w k t' h)

/-- C10: one tick — for any feed behaviour and any delivery behaviour,
including an aborting delivery failure — leaves the subscription
registry exactly as it was, and never deletes a key from the last-seen
registry: every username with a marker before the tick still has one
after it (markers are only inserted or overwritten). -/
theorem tick_frame_condition (f : String → List Entry)
    (send : PyKey → String → Bool) (s : BotState) :
    (check_for_new_movies f send s).1.subscribed_users = s.subscribed_users ∧
    ∀ k : String, dlookup s.last_logged_movies k ≠ none →
      dlookup (check_for_new_movies f send s).1.last_logged_movies k ≠ none := by
  refine ⟨rfl, ?_⟩
  intro k h
  exact check_pairs_preserves_marker_keys f send s.subscribed_users
    s.last_logged_movies [] k h

/-- C10 witness: a tick that overwrites `alice`'s marker keeps the
pre-existing `bob` marker and the subscription registry. -/
theorem tick_frame_condition_witness :
    (check_for_new_movies feedA sendOk
        (⟨[(PyKey.int 1, "alice")], [("bob", "Old")]⟩ : BotState)).1.subscribed_users
      = [(PyKey.int 1, "alice")] ∧
    dlookup ([("bob", "Old")] : List (String × String)) "bob" ≠ none ∧
    dlookup (check_for_new_movies feedA sendOk
        (⟨[(PyKey.int 1, "alice")], [("bob", "Old")]⟩ :
          BotState)).1.last_logged_movies "bob" ≠ none :=
  ⟨(tick_frame_condition feedA sendOk
      (⟨[(PyKey.int 1, "alice")], [("bob", "Old")]⟩ : BotState)).1,
    by decide,
    (tick_frame_condition feedA sendOk
      (⟨[(PyKey.int 1, "alice")], [("bob", "Old")]⟩ : BotState)).2 "bob"
      (by decide)⟩

end Litterboxd
